import Mathlib

/-!
Shallow embedding of the LangGraph SQL agent (src/app.py, src/sql.py).

The repository wires a two-node LangGraph cycle (model node / tool node with a
conditional router) behind a FastAPI SSE endpoint.  The embedding below models:

* the message data (`Message`, `ToolCall`), mirroring LangChain messages and
  the `tool_calls` attribute of assistant messages;
* `tools_router` (src/app.py lines 41-47) and `tool_node` (lines 49-79),
  with the two SQL tools abstracted as a `ToolEnv` whose operations return
  `Except String String` (`Except.error` models a raised exception, caught by
  the `try/except` in `tool_node`);
* the graph loop `model -> router -> tool_node -> model -> ...` as `runTurn`,
  with the external LLM abstracted as a function `List Message -> Message`
  (the `add_messages` reducer appends the returned messages);
* the SSE generator `generate_chat_responses` (lines 116-170) as a pure
  projection from the finished event stream of `graph.astream_events` to the
  list of outbound notifications, with the freshly generated uuid passed in
  as a parameter.
-/

/-- A tool call attached to an assistant message: `tool_call["name"]`,
`tool_call["args"]` (a string-keyed mapping), `tool_call["id"]`. -/
structure ToolCall where
  name : String
  args : List (String × String)
  id : String

deriving instance DecidableEq, Repr for ToolCall

/-- Conversation messages, mirroring `SystemMessage`, `HumanMessage`,
assistant messages (`AIMessage`, which carry a `tool_calls` list) and
`ToolMessage(content, tool_call_id, name)`. -/
inductive Message where
  | system (content : String)
  | human (content : String)
  | assistant (content : String) (tool_calls : List ToolCall)
  | tool (content : String) (tool_call_id : String) (name : String)

deriving instance DecidableEq, Repr for Message

/-- The `tool_calls` attribute of a message.  Only assistant messages carry
tool calls; `hasattr(msg, "tool_calls")` is false for the other kinds, which
the code treats as "no tool calls" (src/app.py line 44 and line 156). -/
def toolCallsOf : Message → List ToolCall
  | .assistant _ tool_calls => tool_calls
  | _ => []

/-- The LangGraph `END` sentinel returned by the router. -/
def END : String := "__end__"

/-- `tools_router` (src/app.py lines 41-47): inspect the last message of the
state; route to `"tool_node"` when it has a nonempty `tool_calls` list,
otherwise to `END`.  The graph only invokes the router on a nonempty
history (the entry point `model` has already appended a message), so the
`none` branch is unreachable in the wiring. -/
def tools_router (state : List Message) : String :=
  match state.getLast? with
  | some last_message =>
      if (toolCallsOf last_message).length > 0 then "tool_node" else END
  | none => END

/-- The two SQL tools of src/sql.py, abstracted: each invocation takes the
argument mapping it is handed and either returns a string result
(`Except.ok`) or raises (`Except.error e`, with `e` the text of the
exception `str(e)`). -/
structure ToolEnv where
  listTables : List (String × String) → Except String String
  runQuery : List (String × String) → Except String String

/-- The dispatch inside the `try` block of `tool_node` (src/app.py lines
61-68): `sql_db_list_tables` is invoked with the **empty** argument mapping
`{}` regardless of `tool_args`; `sql_db_query` is invoked with `tool_args`;
any other name yields the literal unknown-tool string (which cannot raise). -/
def rawToolResult (env : ToolEnv) (tc : ToolCall) : Except String String :=
  if tc.name = "sql_db_list_tables" then
    env.listTables []
  else if tc.name = "sql_db_query" then
    env.runQuery tc.args
  else
    Except.ok ("Error: Unknown tool " ++ tc.name)

/-- The content of the tool-result message for one tool call: the result of
the dispatch, with a raised exception caught and converted to the
`"Error executing tool: ..."` string (src/app.py lines 69-71). -/
def execToolCall (env : ToolEnv) (tc : ToolCall) : String :=
  match rawToolResult env tc with
  | .ok result => result
  | .error e => "Error executing tool: " ++ e

/-- `tool_node` (src/app.py lines 49-79): read the last message's
`tool_calls`, execute each in order, and return one
`ToolMessage(content, tool_call_id, name)` per call, in the same order.
The graph invokes this node only after the router saw a nonempty
`tool_calls` list on the last message. -/
def tool_node (env : ToolEnv) (state : List Message) : List Message :=
  match state.getLast? with
  | some last_message =>
      (toolCallsOf last_message).map (fun tc =>
        Message.tool (execToolCall env tc) tc.id tc.name)
  | none => []

/-- The compiled graph's turn loop (src/app.py lines 82-89): entry point is
`model`; after `model` the conditional edge runs `tools_router`; on
`"tool_node"` the tool node runs and its messages are appended
(`add_messages`), then the fixed edge returns to `model`; on `END` the turn
is over.  The external LLM is `modelFn`; `fuel` bounds the number of model
calls. -/
def runTurn (modelFn : List Message → Message) (env : ToolEnv) :
    Nat → List Message → List Message
  | 0, messages => messages
  | fuel + 1, messages =>
      let m := modelFn messages
      let afterModel := messages ++ [m]
      if tools_router afterModel = "tool_node" then
        runTurn modelFn env fuel (afterModel ++ tool_node env afterModel)
      else
        afterModel

/-- The events delivered by `graph.astream_events(..., version="v2")` that
the generator inspects: `on_chat_model_stream` (with the chunk's `content`
string), `on_chat_model_end` (with the finished assistant message as
`output`), `on_tool_end` (with the event's `name` and the tool `output`
string), and everything else. -/
inductive StreamEvent where
  | chatModelStream (content : String)
  | chatModelEnd (output : Message)
  | toolEnd (name : String) (output : String)
  | other

deriving instance DecidableEq, Repr for StreamEvent

/-- The outbound SSE notifications, by their JSON `type` field. -/
inductive Notification where
  | checkpoint (checkpoint_id : String)
  | content (content : String)
  | sqlQueryStart (query : String)
  | sqlQueryResult (result : String)
  | «end»

deriving instance DecidableEq, Repr for Notification

/-- The notifications the event loop body of `generate_chat_responses`
(src/app.py lines 145-167) yields for one event:
* `on_chat_model_stream`: a `content` notification, only when
  `chunk.content` is truthy (nonempty);
* `on_chat_model_end`: filter the output's tool calls for the name
  `sql_db_query`; when any are present, one `sql_query_start` carrying
  `calls[0]["args"].get("query", "")`;
* `on_tool_end`: when the event name is `sql_db_query`, one
  `sql_query_result` carrying the output. -/
def projectEvent : StreamEvent → List Notification
  | .chatModelStream content =>
      if content ≠ "" then [Notification.content content] else []
  | .chatModelEnd output =>
      match (toolCallsOf output).filter (fun call => call.name == "sql_db_query") with
      | [] => []
      | first_call :: _ =>
          [Notification.sqlQueryStart ((first_call.args.lookup "query").getD "")]
  | .toolEnd name output =>
      if name == "sql_db_query" then [Notification.sqlQueryResult output] else []
  | .other => []

/-- All notifications produced by the `async for` loop, in event order. -/
def projectAll : List StreamEvent → List Notification
  | [] => []
  | ev :: rest => projectEvent ev ++ projectAll rest

/-- `generate_chat_responses` (src/app.py lines 116-170) as a function of
the optional `checkpoint_id` query parameter, the uuid generated for a new
conversation, and the finished event stream of the graph: a `checkpoint`
notification first when `checkpoint_id is None`, then the per-event
notifications, then the terminal `end` notification. -/
def generate_chat_responses (checkpoint_id : Option String)
    (new_checkpoint_id : String) (events : List StreamEvent) :
    List Notification :=
  (match checkpoint_id with
   | none => [Notification.checkpoint new_checkpoint_id]
   | some _ => []) ++ projectAll events ++ [Notification.«end»]

/-! ## Helper lemmas about the projector -/

/-- The per-event projection never produces the terminal `end`
notification: only the final `yield` of the generator does. -/
theorem projectEvent_ne_end (ev : StreamEvent) :
    Notification.«end» ∉ projectEvent ev := by
  cases ev with
  | chatModelStream content =>
      simp only [projectEvent]
      split <;> simp
  | chatModelEnd output =>
      simp only [projectEvent]
      split <;> simp
  | toolEnd name output =>
      simp only [projectEvent]
      split <;> simp
  | other => simp [projectEvent]

/-- The per-event projection never produces a `checkpoint` notification:
only the pre-loop `yield` of a new conversation does. -/
theorem projectEvent_ne_checkpoint (ev : StreamEvent) (x : String) :
    Notification.checkpoint x ∉ projectEvent ev := by
  cases ev with
  | chatModelStream content =>
      simp only [projectEvent]
      split <;> simp
  | chatModelEnd output =>
      simp only [projectEvent]
      split <;> simp
  | toolEnd name output =>
      simp only [projectEvent]
      split <;> simp
  | other => simp [projectEvent]

theorem mem_projectAll {n : Notification} {events : List StreamEvent}
    (h : n ∈ projectAll events) : ∃ ev ∈ events, n ∈ projectEvent ev := by
  induction events with
  | nil => simp [projectAll] at h
  | cons ev rest ih =>
      simp only [projectAll, List.mem_append] at h
      rcases h with h | h
      · exact ⟨ev, List.mem_cons_self .., h⟩
      · obtain ⟨ev', hmem, hn⟩ := ih h
        exact ⟨ev', List.mem_cons_of_mem _ hmem, hn⟩

theorem end_not_mem_projectAll (events : List StreamEvent) :
    Notification.«end» ∉ projectAll events := by
  intro h
  obtain ⟨ev, _, hn⟩ := mem_projectAll h
  exact projectEvent_ne_end ev hn

theorem checkpoint_not_mem_projectAll (events : List StreamEvent) (x : String) :
    Notification.checkpoint x ∉ projectAll events := by
  intro h
  obtain ⟨ev, _, hn⟩ := mem_projectAll h
  exact projectEvent_ne_checkpoint ev x hn

/-! ## Claim theorems -/

/-- Claim C1: for every turn (any `checkpoint_id`, generated uuid, and finished
event stream), the outbound notification sequence contains exactly one
`end` notification, and that notification is the last element. -/
theorem every_turn_exactly_one_end_and_last (checkpoint_id : Option String)
    (new_checkpoint_id : String) (events : List StreamEvent) :
    (generate_chat_responses checkpoint_id new_checkpoint_id events).count
        Notification.«end» = 1 ∧
    (generate_chat_responses checkpoint_id new_checkpoint_id events).getLast? =
        some Notification.«end» := by
  constructor
  · have hpre :
        ((match checkpoint_id with
          | none => [Notification.checkpoint new_checkpoint_id]
          | some _ => []) ++ projectAll events).count Notification.«end» = 0 := by
      rw [List.count_eq_zero]
      intro h
      rcases List.mem_append.mp h with h | h
      · cases checkpoint_id <;> simp_all
      · exact end_not_mem_projectAll events h
    simp only [generate_chat_responses]
    rw [List.count_append, hpre]
    simp
  · simp only [generate_chat_responses]
    exact List.getLast?_concat _

/-- Claim C2: a turn started without a conversation identifier emits `checkpoint`
with the freshly generated thread identifier as its first notification; a
turn started with a conversation identifier emits no `checkpoint`
notification anywhere in the stream. -/
theorem checkpoint_iff_new_conversation (new_checkpoint_id : String)
    (events : List StreamEvent) :
    (generate_chat_responses none new_checkpoint_id events).head? =
        some (Notification.checkpoint new_checkpoint_id) ∧
    ∀ (checkpoint_id x : String),
      Notification.checkpoint x ∉
        generate_chat_responses (some checkpoint_id) new_checkpoint_id events := by
  constructor
  · simp [generate_chat_responses]
  · intro checkpoint_id x h
    simp only [generate_chat_responses, List.nil_append, List.mem_append] at h
    rcases h with h | h
    · exact checkpoint_not_mem_projectAll events x h
    · simp at h

/-- Claim C7: a `model-token` event produces a `content` notification with
the fragment verbatim exactly when the fragment is nonempty, and no
notification when it is empty. -/
theorem content_emitted_iff_nonempty (s : String) :
    (projectEvent (StreamEvent.chatModelStream s) = [Notification.content s] ↔
      s ≠ "") ∧
    (projectEvent (StreamEvent.chatModelStream s) = [] ↔ s = "") := by
  by_cases hs : s = ""
  · subst hs
    simp [projectEvent]
  · simp [projectEvent, hs]

/-- Claim C8: a `tool-call-complete` event named for the query tool
produces a `sql_query_result` notification carrying the raw tool output
string. -/
theorem sql_query_result_for_query_tool (output : String) :
    projectEvent (StreamEvent.toolEnd "sql_db_query" output) =
      [Notification.sqlQueryResult output] := by
  simp [projectEvent]

/-- Claim C5: when the finished assistant message of a
`model-call-complete` event contains at least one `sql_db_query` tool
call, the projector emits exactly one `sql_query_start` notification
carrying the `query` argument of the **first** such call, even when there
are several. -/
theorem sql_query_start_first_query_call (m : Message) (first_call : ToolCall)
    (rest : List ToolCall)
    (h : (toolCallsOf m).filter (fun call => call.name == "sql_db_query") =
        first_call :: rest) :
    projectEvent (StreamEvent.chatModelEnd m) =
      [Notification.sqlQueryStart ((first_call.args.lookup "query").getD "")] := by
  simp only [projectEvent, h]

/-- Witness for C5: a concrete assistant message with two `sql_db_query`
calls; only the first one's query string is surfaced. -/
theorem sql_query_start_first_query_call_witness :
    projectEvent (StreamEvent.chatModelEnd (Message.assistant ""
        [⟨"sql_db_query", [("query", "SELECT 1")], "call_1"⟩,
         ⟨"sql_db_query", [("query", "SELECT 2")], "call_2"⟩])) =
      [Notification.sqlQueryStart "SELECT 1"] :=
  sql_query_start_first_query_call _
    ⟨"sql_db_query", [("query", "SELECT 1")], "call_1"⟩
    [⟨"sql_db_query", [("query", "SELECT 2")], "call_2"⟩] (by decide)

/-- Claim C6: after a model step, the router goes to the tool node exactly
when the last appended message carries at least one tool call, and to the
terminal `END` exactly when it carries none. -/
theorem router_tools_iff_tool_calls (state : List Message) (m : Message)
    (h : state.getLast? = some m) :
    (tools_router state = "tool_node" ↔ (toolCallsOf m).length > 0) ∧
    (tools_router state = END ↔ (toolCallsOf m).length = 0) := by
  simp only [tools_router, h]
  rcases Nat.eq_zero_or_pos (toolCallsOf m).length with hlen | hlen
  · rw [if_neg (by omega)]
    refine ⟨⟨fun hr => absurd hr (by decide), fun hp => by omega⟩,
            ⟨fun _ => hlen, fun _ => rfl⟩⟩
  · rw [if_pos hlen]
    refine ⟨⟨fun _ => hlen, fun _ => rfl⟩,
            ⟨fun hr => absurd hr (by decide), fun hz => by omega⟩⟩

/-- Witness for C6: a concrete two-message history whose last message
carries one tool call routes to the tool node. -/
theorem router_tools_iff_tool_calls_witness :
    tools_router [Message.human "hi",
        Message.assistant "" [⟨"sql_db_list_tables", [], "c0"⟩]] = "tool_node" :=
  ((router_tools_iff_tool_calls
      [Message.human "hi", Message.assistant "" [⟨"sql_db_list_tables", [], "c0"⟩]]
      (Message.assistant "" [⟨"sql_db_list_tables", [], "c0"⟩]) (by decide)).1).mpr
    (by decide)

/-! ## Helper lemmas about the tool node and the turn loop -/

theorem tools_router_concat (state : List Message) (m : Message) :
    tools_router (state ++ [m]) =
      if (toolCallsOf m).length > 0 then "tool_node" else END := by
  simp [tools_router, List.getLast?_concat]

theorem tool_node_concat (env : ToolEnv) (state : List Message) (m : Message) :
    tool_node env (state ++ [m]) =
      (toolCallsOf m).map (fun tc =>
        Message.tool (execToolCall env tc) tc.id tc.name) := by
  simp [tool_node, List.getLast?_concat]

/-- Claim C3: when the model's answer carries tool calls, the tool step
appends exactly one tool-result message per request — tagged with that
request's invocation identifier and tool name — and the next model call of
the turn loop reads a history that already ends with all of them. -/
theorem one_tool_result_per_request_before_next_model_call
    (modelFn : List Message → Message) (env : ToolEnv) (fuel : Nat)
    (messages : List Message)
    (h : (toolCallsOf (modelFn messages)).length > 0) :
    (tool_node env (messages ++ [modelFn messages])).length =
        (toolCallsOf (modelFn messages)).length ∧
    (∀ (i : Nat) (tc : ToolCall), (toolCallsOf (modelFn messages))[i]? = some tc →
      (tool_node env (messages ++ [modelFn messages]))[i]? =
        some (Message.tool (execToolCall env tc) tc.id tc.name)) ∧
    runTurn modelFn env (fuel + 1) messages =
      runTurn modelFn env fuel
        (messages ++ [modelFn messages] ++
          tool_node env (messages ++ [modelFn messages])) := by
  refine ⟨?_, ?_, ?_⟩
  · rw [tool_node_concat]
    exact List.length_map ..
  · intro i tc htc
    rw [tool_node_concat, List.getElem?_map, htc]
    rfl
  · simp only [runTurn]
    rw [if_pos]
    rw [tools_router_concat, if_pos h]

/-- A concrete tool environment for witnesses: the list-tables operation is
sensitive to the argument mapping it receives (so the empty-mapping
behaviour of the dispatch is observable), and queries return a fixed row
rendering. -/
def envW : ToolEnv where
  listTables := fun args => Except.ok ("tables seen with " ++ toString args.length ++ " args")
  runQuery := fun _ => Except.ok "rows"

/-- A concrete model oracle for witnesses: ask for the list-tables tool on
the first call, then stop. -/
def modelFnW : List Message → Message := fun msgs =>
  if msgs.length ≤ 1 then
    Message.assistant "" [⟨"sql_db_list_tables", [], "c0"⟩]
  else
    Message.assistant "All done" []

/-- Witness for C3: on a concrete one-message history whose model answer
requests one tool, the tool step produces exactly one result message. -/
theorem one_tool_result_per_request_witness :
    (tool_node envW ([Message.human "hi"] ++ [modelFnW [Message.human "hi"]])).length =
      (toolCallsOf (modelFnW [Message.human "hi"])).length :=
  (one_tool_result_per_request_before_next_model_call modelFnW envW 1
    [Message.human "hi"] (by decide)).1

/-- Claim C4: a tool call whose name matches no known tool, or whose
execution raises, yields a tool-result message whose content is an explicit
error string, and the tool step still returns a proper tool-result message
for it (the turn continues instead of aborting). -/
theorem tool_errors_recovered (env : ToolEnv) (tc : ToolCall) :
    (tc.name ≠ "sql_db_list_tables" → tc.name ≠ "sql_db_query" →
      execToolCall env tc = "Error: Unknown tool " ++ tc.name) ∧
    (∀ e, rawToolResult env tc = Except.error e →
      execToolCall env tc = "Error executing tool: " ++ e) ∧
    (∀ (state : List Message) (c : String) (tcs : List ToolCall),
      state.getLast? = some (Message.assistant c tcs) → tc ∈ tcs →
      Message.tool (execToolCall env tc) tc.id tc.name ∈ tool_node env state) := by
  refine ⟨?_, ?_, ?_⟩
  · intro h₁ h₂
    simp [execToolCall, rawToolResult, h₁, h₂]
  · intro e he
    simp [execToolCall, he]
  · intro state c tcs hlast hmem
    simp only [tool_node, hlast, toolCallsOf]
    exact List.mem_map_of_mem _ hmem

/-- A concrete tool environment for witnesses whose operations always
raise. -/
def envRaise : ToolEnv where
  listTables := fun _ => Except.error "boom"
  runQuery := fun _ => Except.error "db locked"

/-- Witness for C4: a concrete unknown-tool call and a concrete raising
query call both produce explicit error contents, and the unknown-tool call
still gets a tool-result message in the tool step's output. -/
theorem tool_errors_recovered_witness :
    execToolCall envRaise ⟨"made_up_tool", [], "c1"⟩ =
        "Error: Unknown tool made_up_tool" ∧
    execToolCall envRaise ⟨"sql_db_query", [("query", "SELECT x")], "c2"⟩ =
        "Error executing tool: db locked" ∧
    Message.tool (execToolCall envRaise ⟨"made_up_tool", [], "c1"⟩) "c1" "made_up_tool" ∈
      tool_node envRaise [Message.assistant "" [⟨"made_up_tool", [], "c1"⟩]] :=
  ⟨(tool_errors_recovered envRaise ⟨"made_up_tool", [], "c1"⟩).1
      (by decide) (by decide),
   (tool_errors_recovered envRaise ⟨"sql_db_query", [("query", "SELECT x")], "c2"⟩).2.1
      "db locked" (by rfl),
   (tool_errors_recovered envRaise ⟨"made_up_tool", [], "c1"⟩).2.2
      [Message.assistant "" [⟨"made_up_tool", [], "c1"⟩]] "" [⟨"made_up_tool", [], "c1"⟩]
      (by decide) (by decide)⟩

/-- Claim C9: the dispatch invokes the list-tables tool with the empty
argument mapping no matter what arguments the model supplied, so any two
list-tables calls — whatever their argument mappings — produce the same
tool-result content under the same environment. -/
theorem list_tables_ignores_supplied_args (env : ToolEnv) (tc₁ tc₂ : ToolCall)
    (h₁ : tc₁.name = "sql_db_list_tables")
    (h₂ : tc₂.name = "sql_db_list_tables") :
    rawToolResult env tc₁ = env.listTables [] ∧
    execToolCall env tc₁ = execToolCall env tc₂ := by
  constructor
  · simp [rawToolResult, h₁]
  · simp [execToolCall, rawToolResult, h₁, h₂]

/-- Witness for C9: under the argument-sensitive environment `envW`, a
list-tables call with one supplied argument and one with none produce
identical content (both go through the empty mapping). -/
theorem list_tables_ignores_supplied_args_witness :
    rawToolResult envW ⟨"sql_db_list_tables", [("ignored", "x")], "a"⟩ =
        envW.listTables [] ∧
    execToolCall envW ⟨"sql_db_list_tables", [("ignored", "x")], "a"⟩ =
        execToolCall envW ⟨"sql_db_list_tables", [], "b"⟩ :=
  list_tables_ignores_supplied_args envW
    ⟨"sql_db_list_tables", [("ignored", "x")], "a"⟩
    ⟨"sql_db_list_tables", [], "b"⟩ (by decide) (by decide)

/-- The invocation identifiers carried by the tool-result messages of a
history fragment, in order. -/
def toolResultIds (msgs : List Message) : List String :=
  msgs.filterMap (fun msg =>
    match msg with
    | .tool _ tool_call_id _ => some tool_call_id
    | _ => none)

/-- Claim C10: the tool step processes the last assistant message's
requests strictly in sequence, so the identifiers of the produced
tool-result messages are exactly the requests' identifiers in the same
relative order. -/
theorem tool_results_in_request_order (env : ToolEnv) (state : List Message)
    (c : String) (tcs : List ToolCall)
    (h : state.getLast? = some (Message.assistant c tcs)) :
    toolResultIds (tool_node env state) = tcs.map ToolCall.id := by
  simp only [tool_node, h, toolCallsOf, toolResultIds, List.filterMap_map]
  clear h
  induction tcs with
  | nil => rfl
  | cons tc rest ih => simpa using ih

/-- Witness for C10: a concrete assistant message with two requests yields
tool-result messages whose identifiers are the two request identifiers in
order. -/
theorem tool_results_in_request_order_witness :
    toolResultIds (tool_node envW
        [Message.assistant ""
          [⟨"sql_db_list_tables", [], "idA"⟩,
           ⟨"sql_db_query", [("query", "SELECT 1")], "idB"⟩]]) =
      [⟨"sql_db_list_tables", [], "idA"⟩,
       ⟨"sql_db_query", [("query", "SELECT 1")], "idB"⟩].map ToolCall.id :=
  tool_results_in_request_order envW
    [Message.assistant ""
      [⟨"sql_db_list_tables", [], "idA"⟩,
       ⟨"sql_db_query", [("query", "SELECT 1")], "idB"⟩]] ""
    [⟨"sql_db_list_tables", [], "idA"⟩,
     ⟨"sql_db_query", [("query", "SELECT 1")], "idB"⟩] (by decide)
